import Mathlib

/-!
Verification of the ESP32 four-axis stepper clock firmware (`src/clock.ino`).

The source file holds two variants of the sketch.  Variant 1 (lines 1-235)
keeps per-axis digit targets in `motorTargets` with `motorMoveFlags`, converts
digit to steps inside `motorTask` (`long target = motorTargets[i] *
STEPS_PER_DIGIT`), persists the displayed timestamp to EEPROM via
`saveState`, and performs a boot-time recovery check in `setup`.  Variant 2
(lines 236-398) keeps per-axis float step targets in `targetSteps` with
`moveFlag`, converts digit to steps in `setMotorDigit` (with a clamp of
digits above 10), has a manual-override HTTP handler `handleManualSet`, and
has no persistence at all.

Modelling conventions: the float constant `32.72` and all float arithmetic
are embedded as exact rational arithmetic over `ℚ`; the C conversion of a
nonnegative float to `long` (truncation toward zero) is embedded as `Int.floor`,
which agrees with truncation on the nonnegative values that occur here, and the
integer results agree with IEEE single-precision evaluation for every digit in
[0,10] because each product `d * STEPS_PER_DIGIT` is at distance at least 0.06
from the nearest integer while the accumulated float rounding error is below 0.01.
Unsigned 32-bit arithmetic in the recovery check is embedded as arithmetic on
`ℕ` reduced modulo `2 ^ 32`.  One pass of a motor task's polling loop is one
`motorQuantum` step of an explicit state machine, so that asynchronous
publishes can be interleaved between quanta.
-/

namespace Clock

/-- Microstepping factor, source constant `MICROSTEPS = 16`. -/
def MICROSTEPS : ℕ := 16

/-- Full steps per revolution times microstepping, source constant
`STEPS_PER_REV = 200 * MICROSTEPS`. -/
def STEPS_PER_REV : ℕ := 200 * MICROSTEPS

/-- The float literal `32.72` (degrees of drum rotation per digit) as an
exact rational. -/
def DEGREES_PER_DIGIT : ℚ := 3272 / 100

/-- Source constant `STEPS_PER_DIGIT = (STEPS_PER_REV * DEGREES_PER_DIGIT) / 360.0`.
Exactly `13088 / 45`, not an integer. -/
def STEPS_PER_DIGIT : ℚ := (STEPS_PER_REV * DEGREES_PER_DIGIT) / 360

/-- Phase of one axis controller: at the outer poll of the task loop (`idle`)
or inside the inner stepping loop (`moving`). -/
inductive Phase where
  | idle : Phase
  | moving : Phase
  deriving DecidableEq

/-- State of one motor axis in variant 2: the published (volatile) float step
target `targetSteps[i]` and flag `moveFlag[i]`, plus the `AccelStepper`
motion state owned by the task: the target latched by `moveTo`, the current
position, and the task's phase. -/
structure AxisState where
  targetSteps : ℚ
  moveFlag : Bool
  stepperTarget : ℤ
  pos : ℤ
  phase : Phase
  deriving DecidableEq

/-- Variant 2, `setMotorDigit(index, digit)`: clamp the digit to at most 10,
store `digit * STEPS_PER_DIGIT` into the axis's `targetSteps` slot and raise
its `moveFlag`. -/
def setMotorDigit (s : AxisState) (digit : ℕ) : AxisState :=
  let d := if digit > 10 then 10 else digit
  { s with targetSteps := (d : ℚ) * STEPS_PER_DIGIT, moveFlag := true }

/-- Variant 1 per-axis target slot: `motorTargets[i]` (a digit, not steps)
and `motorMoveFlags[i]`. -/
structure Slot1 where
  motorTarget : ℕ
  motorMoveFlag : Bool
  deriving DecidableEq

/-- Variant 1, `moveToDigit(motor, digit)`: store the raw digit and raise the
flag (no clamping in this variant). -/
def moveToDigit (sl : Slot1) (digit : ℕ) : Slot1 :=
  { sl with motorTarget := digit, motorMoveFlag := true }

/-- The `long` step target computed inside variant 1's `motorTask`:
`long target = motorTargets[motorIndex] * STEPS_PER_DIGIT;` — the
int-times-float product truncated to an integer. -/
def motorTaskTarget (digit : ℕ) : ℤ := ⌊(digit : ℚ) * STEPS_PER_DIGIT⌋

/-- One scheduling quantum of an axis task (both variants have the same loop):
when idle, poll the flag and on success latch the integer step target via
`moveTo` and enter the inner loop; when moving, either emit one step toward
the latched target, or — when the distance to go is zero — clear the flag
and return to the outer poll. -/
def motorQuantum (s : AxisState) : AxisState :=
  match s.phase with
  | .idle =>
      if s.moveFlag then
        { s with stepperTarget := ⌊s.targetSteps⌋, phase := .moving }
      else s
  | .moving =>
      if s.pos = s.stepperTarget then
        { s with moveFlag := false, phase := .idle }
      else if s.pos < s.stepperTarget then
        { s with pos := s.pos + 1 }
      else
        { s with pos := s.pos - 1 }

/-- The fields of an RTClib `DateTime` that the display logic reads, plus its
epoch-seconds value. -/
structure DateTime where
  hour : ℕ
  minute : ℕ
  unixtime : ℕ
  deriving DecidableEq

/-- Construction of a `DateTime` from an epoch-seconds value: hour and minute
are the time-of-day fields of the epoch. -/
def DateTime.ofEpoch (t : ℕ) : DateTime :=
  { hour := t / 3600 % 24, minute := t / 60 % 60, unixtime := t }

/-- Variant 1's `digits[4]` array in `updateDisplay`, literally:
`(dt.hour()%12 ? dt.hour()%12 : 12) / 10`, etc. -/
def displayDigits (dt : DateTime) : List ℕ :=
  [(if dt.hour % 12 ≠ 0 then dt.hour % 12 else 12) / 10,
   (if dt.hour % 12 ≠ 0 then dt.hour % 12 else 12) % 10,
   dt.minute / 10,
   dt.minute % 10]

/-- An observable effect of the display logic: a publish of a digit to an
axis's target slot, or a durable EEPROM write of a timestamp (`saveState`). -/
inductive Event where
  | publish : ℕ → ℕ → Event
  | persist : ℕ → Event
  deriving DecidableEq

/-- Whether an event is a durable write. -/
def Event.isPersist : Event → Bool
  | .persist _ => true
  | .publish _ _ => false

/-- The effect trace of variant 1's `updateDisplay(dt)`: the loop
`for i in 0..3: moveToDigit(i, digits[i])` followed by
`saveState(dt.unixtime())`. -/
def updateDisplayEvents (dt : DateTime) : List Event :=
  ((List.range 4).map fun i => Event.publish i ((displayDigits dt).getD i 0)) ++
    [Event.persist dt.unixtime]

/-- The effect trace of variant 2's `updateDisplay(dt)`: four `setMotorDigit`
calls with the 12-hour digits, and no persistence (variant 2 has no EEPROM). -/
def updateDisplay2Events (dt : DateTime) : List Event :=
  let h0 := dt.hour % 12
  let h := if h0 = 0 then 12 else h0
  [Event.publish 0 (h / 10), Event.publish 1 (h % 10),
   Event.publish 2 (dt.minute / 10), Event.publish 3 (dt.minute % 10)]

/-- The four digits as variant 2's `updateDisplay` computes them:
`hour = dt.hour() % 12; if (hour == 0) hour = 12;` then
`[hour/10, hour%10, minute/10, minute%10]`. -/
def displayDigits2 (dt : DateTime) : List ℕ :=
  let h0 := dt.hour % 12
  let h := if h0 = 0 then 12 else h0
  [h / 10, h % 10, dt.minute / 10, dt.minute % 10]

/-- The variant 1 global state: the four target slots and the EEPROM cell
written by `saveState`. -/
structure Clock1State where
  slots : Fin 4 → Slot1
  savedTime : ℕ

/-- Application of one effect to the variant 1 state: a publish to axis `a`
is `moveToDigit` on that slot, a persist is `saveState`. -/
def applyEvent (s : Clock1State) (e : Event) : Clock1State :=
  match e with
  | .publish a d =>
      if h : a < 4 then
        { s with slots := Function.update s.slots ⟨a, h⟩ (moveToDigit (s.slots ⟨a, h⟩) d) }
      else s
  | .persist t => { s with savedTime := t }

/-- Run a trace of effects against the variant 1 state. -/
def runEvents (s : Clock1State) (es : List Event) : Clock1State :=
  es.foldl applyEvent s

/-- Variant 1's `updateDisplay(dt)` as a state transformer. -/
def updateDisplay (s : Clock1State) (dt : DateTime) : Clock1State :=
  runEvents s (updateDisplayEvents dt)

/-- The modulus of unsigned 32-bit arithmetic. -/
def U32 : ℕ := 2 ^ 32

/-- The boot recovery check in variant 1's `setup` (with `uint32_t`
arithmetic made explicit): read `storedTime = loadState()`; if it is
positive and `currentTime - storedTime < 86400` (unsigned subtraction),
render `DateTime(storedTime + (currentTime - storedTime))`; otherwise do
nothing.  Returns the epoch value rendered, if any.  A `storedTime` of `0`
is the code's sentinel for a missing persisted value.  Inputs are `uint32_t`
values, i.e. naturals below `2 ^ 32`. -/
def planRecovery (storedTime currentTime : ℕ) : Option ℕ :=
  if storedTime > 0 then
    if (currentTime + U32 - storedTime) % U32 < 86400 then
      some ((storedTime + (currentTime + U32 - storedTime) % U32) % U32)
    else none
  else none

/-- The effect trace of the recovery block in `setup`: one full
`updateDisplay` render when `planRecovery` fires, nothing otherwise. -/
def setupRecoveryEvents (storedTime currentTime : ℕ) : List Event :=
  match planRecovery storedTime currentTime with
  | some t => updateDisplayEvents (DateTime.ofEpoch t)
  | none => []

/-- The variant 2 global state: the four axes (target slots plus motion
state). -/
structure Clock2State where
  axes : Fin 4 → AxisState

/-- Publish a digit to one axis of the variant 2 state via `setMotorDigit`. -/
def publishTo (s : Clock2State) (i : Fin 4) (digit : ℕ) : Clock2State :=
  { axes := Function.update s.axes i (setMotorDigit (s.axes i) digit) }

/-- Variant 2's `updateDisplay(dt)`: compute the 12-hour value and issue the
four `setMotorDigit` calls. -/
def updateDisplay2 (s : Clock2State) (dt : DateTime) : Clock2State :=
  let h0 := dt.hour % 12
  let h := if h0 = 0 then 12 else h0
  publishTo (publishTo (publishTo (publishTo s 0 (h / 10)) 1 (h % 10))
    2 (dt.minute / 10)) 3 (dt.minute % 10)

/-- Variant 2's `handleManualSet`: parse `motor` and `digit` as signed ints;
only when `0 ≤ motor < 4` and `0 ≤ digit ≤ 10` call `setMotorDigit` and
answer 200 (`true`); otherwise answer 400 (`false`) and touch nothing. -/
def handleManualSet (s : Clock2State) (motor digit : ℤ) : Clock2State × Bool :=
  if h : 0 ≤ motor ∧ motor < 4 ∧ 0 ≤ digit ∧ digit ≤ 10 then
    (publishTo s ⟨motor.toNat, by omega⟩ digit.toNat, true)
  else (s, false)

/-- The startup state of one axis: position zeroed (`setCurrentPosition(0)`),
no published target, idle at the outer poll. -/
def axis0 : AxisState :=
  { targetSteps := 0, moveFlag := false, stepperTarget := 0, pos := 0, phase := .idle }

/-- The startup state of a variant 1 target slot. -/
def slot0 : Slot1 := { motorTarget := 0, motorMoveFlag := false }

/-- The startup variant 1 global state (EEPROM cell zero). -/
def clock1Init : Clock1State := { slots := fun _ => slot0, savedTime := 0 }

/-- The startup variant 2 global state. -/
def clock2Init : Clock2State := { axes := fun _ => axis0 }

/-- The scenario of a publish arriving while the axis is moving: publish
digit 1 from rest, let the task latch it, publish digit 2 mid-move, then run
291 quanta — enough for the 290-step move to digit 1 plus the loop pass that
clears the flag. -/
def c4lost : AxisState :=
  motorQuantum^[291] (setMotorDigit (motorQuantum (setMotorDigit axis0 1)) 2)

lemma spd_eq : STEPS_PER_DIGIT = 13088 / 45 := by
  norm_num [STEPS_PER_DIGIT, STEPS_PER_REV, DEGREES_PER_DIGIT, MICROSTEPS]

lemma spd_nonneg : 0 ≤ STEPS_PER_DIGIT := by
  rw [spd_eq]
  norm_num

lemma floor_mul_spd (d : ℕ) : ⌊(d : ℚ) * STEPS_PER_DIGIT⌋ = (13088 * d : ℕ) / 45 := by
  rw [spd_eq]
  rw [show ((d : ℚ) * (13088 / 45) : ℚ) = ((13088 * d : ℕ) : ℚ) / ((45 : ℕ) : ℚ) by
    push_cast; ring]
  rw [Rat.floor_natCast_div_natCast]
  norm_num

lemma setMotorDigit_no_clamp (s : AxisState) (d : ℕ) (hd : d ≤ 10) :
    setMotorDigit s d = { s with targetSteps := (d : ℚ) * STEPS_PER_DIGIT, moveFlag := true } := by
  unfold setMotorDigit
  rw [if_neg (by omega)]

lemma motorQuantum_idle_flag (s : AxisState) (hp : s.phase = .idle) (hf : s.moveFlag = true) :
    motorQuantum s = { s with stepperTarget := ⌊s.targetSteps⌋, phase := .moving } := by
  unfold motorQuantum
  rw [hp]
  simp [hf]

lemma motorQuantum_idle_noflag (s : AxisState) (hp : s.phase = .idle) (hf : s.moveFlag = false) :
    motorQuantum s = s := by
  unfold motorQuantum
  rw [hp]
  simp [hf]

lemma motorQuantum_step_up (s : AxisState) (hp : s.phase = .moving)
    (hlt : s.pos < s.stepperTarget) :
    motorQuantum s = { s with pos := s.pos + 1 } := by
  unfold motorQuantum
  rw [hp]
  simp only [if_neg (by omega : ¬ s.pos = s.stepperTarget), if_pos hlt]

lemma motorQuantum_step_down (s : AxisState) (hp : s.phase = .moving)
    (hgt : s.stepperTarget < s.pos) :
    motorQuantum s = { s with pos := s.pos - 1 } := by
  unfold motorQuantum
  rw [hp]
  simp only [if_neg (by omega : ¬ s.pos = s.stepperTarget),
    if_neg (by omega : ¬ s.pos < s.stepperTarget)]

lemma motorQuantum_done (s : AxisState) (hp : s.phase = .moving)
    (heq : s.pos = s.stepperTarget) :
    motorQuantum s = { s with moveFlag := false, phase := .idle } := by
  unfold motorQuantum
  rw [hp]
  simp [heq]

/-- From the moving phase, at distance n from the latched target in either
direction, n + 1 quanta drive the position to the target (one step per pass,
up or down) and the final pass clears the flag. -/
lemma motorQuantum_run_to_target (n : ℕ) : ∀ s : AxisState, s.phase = .moving →
    (s.stepperTarget - s.pos).natAbs = n →
    motorQuantum^[n + 1] s =
      { s with pos := s.stepperTarget, moveFlag := false, phase := .idle } := by
  induction n with
  | zero =>
      intro s hp he
      have he2 : s.pos = s.stepperTarget := by omega
      simp only [Nat.zero_add, Function.iterate_one]
      rw [motorQuantum_done s hp he2, ← he2]
  | succ n ih =>
      intro s hp he
      rcases lt_or_gt_of_ne (show s.pos ≠ s.stepperTarget by omega) with hlt | hgt
      · rw [Function.iterate_succ_apply, motorQuantum_step_up s hp hlt]
        rw [ih { s with pos := s.pos + 1 } hp
          (by show (s.stepperTarget - (s.pos + 1)).natAbs = n; omega)]
      · rw [Function.iterate_succ_apply, motorQuantum_step_down s hp hgt]
        rw [ih { s with pos := s.pos - 1 } hp
          (by show (s.stepperTarget - (s.pos - 1)).natAbs = n; omega)]

lemma c4lost_eq :
    c4lost = { targetSteps := ((2 : ℕ) : ℚ) * STEPS_PER_DIGIT, moveFlag := false,
               stepperTarget := 290, pos := 290, phase := .idle } := by
  unfold c4lost
  rw [show setMotorDigit axis0 1 =
      { targetSteps := ((1 : ℕ) : ℚ) * STEPS_PER_DIGIT, moveFlag := true,
        stepperTarget := 0, pos := 0, phase := .idle } from rfl]
  rw [motorQuantum_idle_flag _ rfl rfl]
  rw [show ⌊((1 : ℕ) : ℚ) * STEPS_PER_DIGIT⌋ = 290 by rw [floor_mul_spd]; decide]
  rw [show setMotorDigit
      { targetSteps := ((1 : ℕ) : ℚ) * STEPS_PER_DIGIT, moveFlag := true,
        stepperTarget := 290, pos := 0, phase := .moving } 2 =
      { targetSteps := ((2 : ℕ) : ℚ) * STEPS_PER_DIGIT, moveFlag := true,
        stepperTarget := 290, pos := 0, phase := .moving } from rfl]
  rw [show (291 : ℕ) = 290 + 1 by norm_num]
  rw [motorQuantum_run_to_target 290 _ rfl (by decide)]

/-- C1 (counterexample): the claim fails as stated for the target computed by
variant 1's motorTask: `long target = motorTargets[i] * STEPS_PER_DIGIT`
truncates, so for digit 1 the computed step target is 290, which is not
exactly `1 * STEPS_PER_DIGIT = 13088/45 = 290.8444…`. -/
theorem C1_counterexample :
    motorTaskTarget 1 = 290 ∧
    ((motorTaskTarget 1 : ℚ) ≠ ((1 : ℕ) : ℚ) * STEPS_PER_DIGIT) := by
  have h : motorTaskTarget 1 = 290 := by
    unfold motorTaskTarget
    rw [floor_mul_spd]
    decide
  refine ⟨h, ?_⟩
  rw [h, spd_eq]
  norm_num

/-- C1 (amended): for every digit d ≤ 10 (digits 0-9 and the BLANK sentinel
10), `setMotorDigit` publishes the float target exactly `d * STEPS_PER_DIGIT`;
the `long` step target computed in `motorTask` is the integer truncation of
that value — within 1 below it, but not equal to it for any d ≥ 1, because
`STEPS_PER_DIGIT = 13088/45` is not an integer. -/
theorem C1_steps_conversion (s : AxisState) (d : ℕ) (hd : d ≤ 10) :
    (setMotorDigit s d).targetSteps = (d : ℚ) * STEPS_PER_DIGIT ∧
    ((motorTaskTarget d : ℚ) ≤ (d : ℚ) * STEPS_PER_DIGIT ∧
      (d : ℚ) * STEPS_PER_DIGIT < (motorTaskTarget d : ℚ) + 1) ∧
    (1 ≤ d → (motorTaskTarget d : ℚ) ≠ (d : ℚ) * STEPS_PER_DIGIT) := by
  refine ⟨?_, ⟨?_, ?_⟩, ?_⟩
  · rw [setMotorDigit_no_clamp s d hd]
  · unfold motorTaskTarget
    exact Int.floor_le _
  · unfold motorTaskTarget
    exact Int.lt_floor_add_one _
  · intro h1
    unfold motorTaskTarget
    rw [floor_mul_spd, spd_eq]
    interval_cases d <;> norm_num

/-- Witness for C1_steps_conversion at the boundary digit 9. -/
theorem C1_steps_conversion_witness :
    (setMotorDigit axis0 9).targetSteps = ((9 : ℕ) : ℚ) * STEPS_PER_DIGIT :=
  (C1_steps_conversion axis0 9 (by norm_num)).1

/-- C4 (counterexample): publish digit 1 from rest, let the axis latch it and
start moving, publish digit 2 mid-move, and run the task loop: the axis
finishes the 290-step move to digit 1 and the completion pass clears the
flag, leaving a fixed point of the task loop.  The mid-move publish of
digit 2 (step target 581) is never acted on. -/
theorem C4_counterexample :
    c4lost = { targetSteps := ((2 : ℕ) : ℚ) * STEPS_PER_DIGIT, moveFlag := false,
               stepperTarget := 290, pos := 290, phase := .idle } ∧
    motorQuantum c4lost = c4lost ∧
    ⌊c4lost.targetSteps⌋ = 581 ∧
    c4lost.pos ≠ ⌊c4lost.targetSteps⌋ := by
  have h := c4lost_eq
  refine ⟨h, ?_, ?_, ?_⟩
  · rw [h]
    exact motorQuantum_idle_noflag _ rfl rfl
  · rw [h]
    show ⌊((2 : ℕ) : ℚ) * STEPS_PER_DIGIT⌋ = 581
    rw [floor_mul_spd]
    decide
  · rw [h]
    show (290 : ℤ) ≠ ⌊((2 : ℕ) : ℚ) * STEPS_PER_DIGIT⌋
    rw [floor_mul_spd]
    decide

/-- C4 (amended): every motion in progress is non-preemptible — a publish
while Moving changes neither the latched stepper target, nor the position,
nor the phase, and the move then runs to completion, one step per pass
toward the latched target whether it lies above or below the current
position — but the completion pass clears the move flag unconditionally, so
after the move the flag is false and a target published mid-move has been
lost rather than re-polled. -/
theorem C4_nonpreemptible_publish_lost (s : AxisState) (d : ℕ)
    (hp : s.phase = .moving) :
    (setMotorDigit s d).phase = .moving ∧
    (setMotorDigit s d).stepperTarget = s.stepperTarget ∧
    (setMotorDigit s d).pos = s.pos ∧
    motorQuantum^[(s.stepperTarget - s.pos).natAbs + 1] (setMotorDigit s d) =
      { s with targetSteps := ((if d > 10 then 10 else d : ℕ) : ℚ) * STEPS_PER_DIGIT,
               pos := s.stepperTarget, moveFlag := false, phase := .idle } := by
  refine ⟨hp, rfl, rfl, ?_⟩
  rw [motorQuantum_run_to_target (s.stepperTarget - s.pos).natAbs
    (setMotorDigit s d) hp rfl]
  rfl

/-- Witness for C4_nonpreemptible_publish_lost: a downward 3-step move (from
position 5 to latched target 2) with digit 7 published mid-move ends at the
old target with the flag cleared — the publish is lost. -/
theorem C4_nonpreemptible_publish_lost_witness :
    motorQuantum^[4]
      (setMotorDigit
        { targetSteps := 0, moveFlag := false, stepperTarget := 2, pos := 5,
          phase := .moving } 7) =
      { targetSteps := ((7 : ℕ) : ℚ) * STEPS_PER_DIGIT, moveFlag := false,
        stepperTarget := 2, pos := 2, phase := .idle } :=
  (C4_nonpreemptible_publish_lost
    { targetSteps := 0, moveFlag := false, stepperTarget := 2, pos := 5,
      phase := .moving } 7 rfl).2.2.2

/-- C5: last-write-wins on a target slot.  Publishing A then B (either
variant) is the same slot write as publishing B alone; after the double
publish the slot holds B (digit B in variant 1, B * STEPS_PER_DIGIT in
variant 2); the first idle poll of the axis latches B's step target and
starts moving — the one take observes only B — and an idle axis whose flag
is down takes nothing, so after the consuming cycle clears the flag there is
no second take. -/
theorem C5_last_write_wins (s : AxisState) (sl : Slot1) (A B : ℕ)
    (hB : B ≤ 10) (hidle : s.phase = .idle) :
    setMotorDigit (setMotorDigit s A) B = setMotorDigit s B ∧
    moveToDigit (moveToDigit sl A) B = moveToDigit sl B ∧
    (moveToDigit (moveToDigit sl A) B).motorTarget = B ∧
    (setMotorDigit (setMotorDigit s A) B).targetSteps = (B : ℚ) * STEPS_PER_DIGIT ∧
    motorQuantum (setMotorDigit (setMotorDigit s A) B) =
      { setMotorDigit s B with
        stepperTarget := ⌊(B : ℚ) * STEPS_PER_DIGIT⌋, phase := .moving } ∧
    (∀ u : AxisState, u.phase = .idle → u.moveFlag = false → motorQuantum u = u) := by
  have hov : setMotorDigit (setMotorDigit s A) B = setMotorDigit s B := rfl
  refine ⟨hov, rfl, rfl, ?_, ?_, ?_⟩
  · rw [hov, setMotorDigit_no_clamp s B hB]
  · rw [hov, setMotorDigit_no_clamp s B hB]
    rw [motorQuantum_idle_flag
      { targetSteps := (B : ℚ) * STEPS_PER_DIGIT, moveFlag := true,
        stepperTarget := s.stepperTarget, pos := s.pos, phase := s.phase } hidle rfl]
  · intro u h1 h2
    exact motorQuantum_idle_noflag u h1 h2

/-- Witness for C5_last_write_wins: publishing 3 then 7 from the startup
state leaves exactly the publish of 7. -/
theorem C5_last_write_wins_witness :
    setMotorDigit (setMotorDigit axis0 3) 7 = setMotorDigit axis0 7 ∧
    (setMotorDigit (setMotorDigit axis0 3) 7).targetSteps = ((7 : ℕ) : ℚ) * STEPS_PER_DIGIT :=
  ⟨(C5_last_write_wins axis0 slot0 3 7 (by norm_num) rfl).1,
   (C5_last_write_wins axis0 slot0 3 7 (by norm_num) rfl).2.2.2.1⟩

/-- C9: setMotorDigit clamps any digit above 10 down to 10 instead of
rejecting it, so for every input byte the published step target is at most
10 * STEPS_PER_DIGIT, with equality for every out-of-range digit. -/
theorem C9_clamp (s : AxisState) (d : ℕ) :
    (setMotorDigit s d).targetSteps ≤ 10 * STEPS_PER_DIGIT ∧
    (10 < d → (setMotorDigit s d).targetSteps = ((10 : ℕ) : ℚ) * STEPS_PER_DIGIT) := by
  constructor
  · show ((if d > 10 then 10 else d : ℕ) : ℚ) * STEPS_PER_DIGIT ≤ 10 * STEPS_PER_DIGIT
    apply mul_le_mul_of_nonneg_right _ spd_nonneg
    have h10 : (if d > 10 then 10 else d : ℕ) ≤ 10 := by split <;> omega
    exact_mod_cast h10
  · intro h
    show ((if d > 10 then 10 else d : ℕ) : ℚ) * STEPS_PER_DIGIT = _
    rw [if_pos h]

/-- Witness for C9_clamp at the out-of-range byte 255. -/
theorem C9_clamp_witness :
    (setMotorDigit axis0 255).targetSteps ≤ 10 * STEPS_PER_DIGIT ∧
    (setMotorDigit axis0 255).targetSteps = ((10 : ℕ) : ℚ) * STEPS_PER_DIGIT :=
  ⟨(C9_clamp axis0 255).1, (C9_clamp axis0 255).2 (by norm_num)⟩

lemma updateDisplayEvents_eq (dt : DateTime) :
    updateDisplayEvents dt =
      [Event.publish 0 ((displayDigits dt).getD 0 0),
       Event.publish 1 ((displayDigits dt).getD 1 0),
       Event.publish 2 ((displayDigits dt).getD 2 0),
       Event.publish 3 ((displayDigits dt).getD 3 0),
       Event.persist dt.unixtime] := rfl

lemma updateDisplay_eval (s : Clock1State) (dt : DateTime) :
    updateDisplay s dt =
      { slots := fun i => { motorTarget := (displayDigits dt).getD i 0, motorMoveFlag := true },
        savedTime := dt.unixtime } := by
  unfold updateDisplay runEvents
  rw [updateDisplayEvents_eq]
  simp only [List.foldl, applyEvent]
  rw [dif_pos (by norm_num), dif_pos (by norm_num), dif_pos (by norm_num),
    dif_pos (by norm_num)]
  simp only [Clock1State.mk.injEq, and_true]
  funext i
  fin_cases i <;> rfl

/-- C2: for every timestamp, the rendered digits are
`[h/10, h%10, minute/10, minute%10]` with `h = hour % 12` replaced by 12
when the remainder is 0; both variants compute the same four digits; variant
2's render publishes them, in order, to axes 0-3 by calling `setMotorDigit`
on each axis with its digit; and hours 0 and 12 both yield hour digits
(1,2) while hour 13 yields hour digits (0,1). -/
theorem C2_render_digits (dt : DateTime) (s : Clock2State) :
    displayDigits dt =
      [(if dt.hour % 12 = 0 then 12 else dt.hour % 12) / 10,
       (if dt.hour % 12 = 0 then 12 else dt.hour % 12) % 10,
       dt.minute / 10, dt.minute % 10] ∧
    displayDigits2 dt = displayDigits dt ∧
    updateDisplay2Events dt =
      ((List.range 4).map fun i => Event.publish i ((displayDigits2 dt).getD i 0)) ∧
    ((updateDisplay2 s dt).axes =
      fun i => setMotorDigit (s.axes i) ((displayDigits2 dt).getD i 0)) ∧
    (∀ m u, displayDigits { hour := 0, minute := m, unixtime := u } =
      [1, 2, m / 10, m % 10]) ∧
    (∀ m u, displayDigits { hour := 12, minute := m, unixtime := u } =
      [1, 2, m / 10, m % 10]) ∧
    (∀ m u, displayDigits { hour := 13, minute := m, unixtime := u } =
      [0, 1, m / 10, m % 10]) := by
  refine ⟨?_, ?_, rfl, ?_, ?_, ?_, ?_⟩
  · by_cases h : dt.hour % 12 = 0 <;> simp [displayDigits, h]
  · by_cases h : dt.hour % 12 = 0 <;> simp [displayDigits2, displayDigits, h]
  · funext i
    fin_cases i <;> rfl
  · intro m u
    norm_num [displayDigits]
  · intro m u
    norm_num [displayDigits]
  · intro m u
    norm_num [displayDigits]

/-- C3: the boot recovery check.  With a persisted value T ≥ 1 and current
time C in range, recovery fires exactly when C - T < 86400, and then renders
exactly the current time C; a gap of 86400 or more, or a missing persisted
value (the stored-zero sentinel), yields no recovery and no render. -/
theorem C3_planRecovery_boundary (T C : ℕ) (hT : 1 ≤ T) (hTC : T ≤ C) (hC : C < U32) :
    (C - T < 86400 →
      planRecovery T C = some C ∧
      setupRecoveryEvents T C = updateDisplayEvents (DateTime.ofEpoch C)) ∧
    (86400 ≤ C - T →
      planRecovery T C = none ∧ setupRecoveryEvents T C = []) ∧
    planRecovery 0 C = none ∧
    setupRecoveryEvents 0 C = [] := by
  have hU : U32 = 4294967296 := by norm_num [U32]
  have hdiff : (C + U32 - T) % U32 = C - T := by
    have h1 : C + U32 - T = (C - T) + U32 := by omega
    rw [h1, Nat.add_mod_right]
    exact Nat.mod_eq_of_lt (by omega)
  have hzero : planRecovery 0 C = none := by
    unfold planRecovery
    rw [if_neg (by norm_num)]
  refine ⟨?_, ?_, hzero, ?_⟩
  · intro hlt
    have hp : planRecovery T C = some C := by
      unfold planRecovery
      rw [if_pos (by omega), hdiff, if_pos hlt,
        show T + (C - T) = C by omega, Nat.mod_eq_of_lt hC]
    refine ⟨hp, ?_⟩
    unfold setupRecoveryEvents
    rw [hp]
  · intro hge
    have hp : planRecovery T C = none := by
      unfold planRecovery
      rw [if_pos (by omega), hdiff, if_neg (by omega)]
    refine ⟨hp, ?_⟩
    unfold setupRecoveryEvents
    rw [hp]
  · unfold setupRecoveryEvents
    rw [hzero]

/-- Witness for C3_planRecovery_boundary: persisted 1000, current 1200
(gap 200 s) recovers and renders epoch 1200. -/
theorem C3_planRecovery_boundary_witness :
    planRecovery 1000 1200 = some 1200 ∧
    setupRecoveryEvents 1000 1200 = updateDisplayEvents (DateTime.ofEpoch 1200) :=
  (C3_planRecovery_boundary 1000 1200 (by norm_num) (by norm_num)
    (by norm_num [U32])).1 (by norm_num)

/-- C6: rendering the same timestamp twice is idempotent — the second
`updateDisplay` leaves every target slot and the persisted timestamp exactly
as the first one did, and the persisted value is the rendered timestamp
itself (no accumulation). -/
theorem C6_render_idempotent (s : Clock1State) (dt : DateTime) :
    updateDisplay (updateDisplay s dt) dt = updateDisplay s dt ∧
    (updateDisplay s dt).savedTime = dt.unixtime := by
  simp [updateDisplay_eval]

/-- C7: a manual-override request with the motor index or the digit out of
range is rejected at the boundary with HTTP 400 (`false`) and the state —
every target slot and every motion state — is returned untouched. -/
theorem C7_manual_reject (s : Clock2State) (motor digit : ℤ)
    (h : motor < 0 ∨ 3 < motor ∨ digit < 0 ∨ 10 < digit) :
    handleManualSet s motor digit = (s, false) := by
  unfold handleManualSet
  rw [dif_neg (by omega)]

/-- Witness for C7_manual_reject: motor index 4 with digit 5 is rejected and
changes nothing. -/
theorem C7_manual_reject_witness :
    handleManualSet clock2Init 4 5 = (clock2Init, false) :=
  C7_manual_reject clock2Init 4 5 (by omega)

/-- C8 (counterexample): the claim fails as stated for variant 2, whose
`updateDisplay` changes the displayed digits (it publishes the four digits
of the timestamp) but performs zero durable writes — variant 2 has no
persistence layer at all. -/
theorem C8_counterexample :
    updateDisplay2Events (DateTime.ofEpoch 0) =
      [Event.publish 0 1, Event.publish 1 2, Event.publish 2 0, Event.publish 3 0] ∧
    (updateDisplay2Events (DateTime.ofEpoch 0)).countP Event.isPersist = 0 :=
  ⟨rfl, rfl⟩

/-- C8 (amended): in variant 1 — the variant that has persistence — every
invocation of `updateDisplay(dt)` emits exactly one durable write, of
`dt.unixtime`, and that write is the last of its five effects, after all
four target publishes; variant 2's `updateDisplay` performs no durable
write. -/
theorem C8_persist_once_after_publishes (dt : DateTime) :
    (updateDisplayEvents dt).countP Event.isPersist = 1 ∧
    (updateDisplayEvents dt).getLast? = some (Event.persist dt.unixtime) ∧
    (updateDisplayEvents dt).length = 5 ∧
    (updateDisplayEvents dt).dropLast.all (fun e => !e.isPersist) = true ∧
    (updateDisplayEvents dt).dropLast.length = 4 ∧
    (updateDisplay2Events dt).countP Event.isPersist = 0 :=
  ⟨rfl, rfl, rfl, rfl, rfl, rfl⟩

/-- C10 (counterexample): the claim fails as stated: for stored timestamp
`2^32 - 1` and current time 0 (stored in the future, far beyond the wrap
margin) the unsigned difference wraps to 1, which is below 86400, so the
recovery render IS performed (rendering epoch 0). -/
theorem C10_counterexample :
    (0 + U32 - (U32 - 1)) % U32 = 1 ∧
    planRecovery (U32 - 1) 0 = some 0 := by
  constructor
  · norm_num [U32]
  · unfold planRecovery
    rw [if_pos (by norm_num [U32])]
    norm_num [U32]

/-- C10 (amended): the recovery gap test uses unsigned 32-bit subtraction,
so for every stored timestamp S > 0 and current time C < S whose distance
is at most `2^32 - 86400`, the difference wraps to at least 86400 and no
recovery is performed; only a persisted value more than `2^32 - 86400`
seconds ahead of the clock (about 136 years) escapes this guard. -/
theorem C10_wrap_no_recovery (S C : ℕ) (hS : 0 < S) (hS2 : S < U32) (hCS : C < S)
    (hgap : S - C ≤ U32 - 86400) :
    86400 ≤ (C + U32 - S) % U32 ∧ planRecovery S C = none := by
  have hU : U32 = 4294967296 := by norm_num [U32]
  have hdiff : (C + U32 - S) % U32 = C + U32 - S := Nat.mod_eq_of_lt (by omega)
  constructor
  · rw [hdiff]
    omega
  · unfold planRecovery
    rw [if_pos hS, if_neg (by rw [hdiff]; omega)]

/-- Witness for C10_wrap_no_recovery: stored 1000000, current 5. -/
theorem C10_wrap_no_recovery_witness :
    86400 ≤ (5 + U32 - 1000000) % U32 ∧ planRecovery 1000000 5 = none :=
  C10_wrap_no_recovery 1000000 5 (by norm_num) (by norm_num [U32]) (by norm_num)
    (by norm_num [U32])

end Clock
